import Mathlib

/-!
Shallow embedding of the authentication/authorization subsystem of the
rag-nl2sql-agent repository (source: src/docs/auth_system.py, class
`AuthSystem`).  The SQLite-backed state is modelled as an explicit `Store`
record that every operation threads; timestamps are natural numbers
(seconds), so `timedelta(minutes=30)` is 1800 and `timedelta(hours=8)` is
28800.  The random salt and the random session token (`secrets.token_hex`,
`secrets.token_urlsafe`) are passed in as parameters.  PBKDF2 hashing is
modelled by an abstract injective string tagging; only equality /
inequality of digests matters to the control flow being verified.
AUTOINCREMENT ids for `sessions` and `query_history` rows are never read
by the code and are omitted; the `users` id is kept (it is used as a
foreign key and in UPDATE ... WHERE id = ?).
-/

namespace AuthSys

/- Role name constants, from class `UserRole` in auth_system.py. -/
namespace UserRole

def ADMIN : String := "admin"

def ANALYST : String := "analyst"

def VIEWER : String := "viewer"

def GUEST : String := "guest"

end UserRole

/- Permission name constants, from class `Permission` in auth_system.py. -/
namespace Permission

def READ_DATA : String := "read_data"

def WRITE_DATA : String := "write_data"

def DELETE_DATA : String := "delete_data"

def MANAGE_USERS : String := "manage_users"

def VIEW_ANALYTICS : String := "view_analytics"

def EXPORT_DATA : String := "export_data"

def CREATE_DASHBOARDS : String := "create_dashboards"

def MANAGE_SCHEMAS : String := "manage_schemas"

def VIEW_QUERY_HISTORY : String := "view_query_history"

def SHARE_QUERIES : String := "share_queries"

end Permission

/-- The static `ROLE_PERMISSIONS` dict (auth_system.py lines 42-61); the
`.get(role, [])` default used at the call sites is folded in as the final
else branch. -/
def ROLE_PERMISSIONS (role : String) : List String :=
  if role == UserRole.ADMIN then
    [Permission.READ_DATA, Permission.WRITE_DATA, Permission.DELETE_DATA,
     Permission.MANAGE_USERS, Permission.VIEW_ANALYTICS, Permission.EXPORT_DATA,
     Permission.CREATE_DASHBOARDS, Permission.MANAGE_SCHEMAS,
     Permission.VIEW_QUERY_HISTORY, Permission.SHARE_QUERIES]
  else if role == UserRole.ANALYST then
    [Permission.READ_DATA, Permission.WRITE_DATA, Permission.VIEW_ANALYTICS,
     Permission.EXPORT_DATA, Permission.CREATE_DASHBOARDS,
     Permission.VIEW_QUERY_HISTORY, Permission.SHARE_QUERIES]
  else if role == UserRole.VIEWER then
    [Permission.READ_DATA, Permission.VIEW_ANALYTICS, Permission.EXPORT_DATA,
     Permission.VIEW_QUERY_HISTORY]
  else if role == UserRole.GUEST then
    [Permission.READ_DATA]
  else []

/-- A row of the `users` table. `locked_until = none` models SQL NULL. -/
structure User where
  id : Nat
  username : String
  email : String
  password_hash : String
  salt : String
  role : String
  is_active : Bool
  created_at : Nat
  last_login : Option Nat
  failed_login_attempts : Nat
  locked_until : Option Nat
  deriving DecidableEq

/-- A row of the `sessions` table (the never-read AUTOINCREMENT id is
omitted). -/
structure Session where
  user_id : Nat
  session_token : String
  created_at : Nat
  expires_at : Nat
  is_active : Bool
  ip_address : String
  user_agent : String
  deriving DecidableEq

/-- A row of the `query_history` table.  `execution_time` is a Python
float passed through unexamined; it is modelled as an opaque `Option Int`
since no control flow depends on its value. -/
structure QueryLogEntry where
  user_id : Nat
  natural_query : String
  generated_sql : String
  execution_time : Option Int
  result_count : Option Nat
  status : String
  error_message : Option String
  deriving DecidableEq

/-- A row of the `user_preferences` table (only the columns `create_user`
writes). -/
structure Prefs where
  user_id : Nat
  favorite_queries : String
  dashboard_layout : String
  notification_settings : String
  deriving DecidableEq

/-- The whole persistent database.  `next_user_id` models the users
AUTOINCREMENT counter (`cursor.lastrowid`). -/
structure Store where
  users : List User
  next_user_id : Nat
  sessions : List Session
  query_history : List QueryLogEntry
  user_preferences : List Prefs
  deriving DecidableEq

/-- Model of `AuthSystem._hash_password` (pbkdf2_hmac), abstracted: a
digest that determines and is determined by the (salt, password) pair.
Only digest equality is ever inspected by the code. -/
def hash_password (password salt : String) : String :=
  "pbkdf2_sha256$" ++ salt ++ "$" ++ password

/-- First row of `SELECT ... FROM users WHERE username = ? OR email = ?`
with the identifier bound to both placeholders (authenticate, lines
224-228). -/
def findUser (users : List User) (ident : String) : Option User :=
  users.find? (fun u => u.username == ident || u.email == ident)

/-- First row of `SELECT ... FROM users WHERE id = ?` (the JOIN side of
validate_session). -/
def findUserById (users : List User) (uid : Nat) : Option User :=
  users.find? (fun u => u.id == uid)

/-- The lock check `locked_until and datetime.fromisoformat(locked_until) > datetime.now()` of authenticate, line 237. -/
def lockActive (locked_until : Option Nat) (now : Nat) : Bool :=
  match locked_until with
  | some t => now < t
  | none => false

/-- The row update of `UPDATE users SET failed_login_attempts = ?,
locked_until = ? WHERE id = ?` (authenticate, lines 255-258). -/
def recordFailure (uid newFailed : Nat) (lockTime : Option Nat) (x : User) : User :=
  if x.id == uid then
    { x with failed_login_attempts := newFailed, locked_until := lockTime }
  else x

/-- The row update of `UPDATE users SET failed_login_attempts = 0,
locked_until = NULL, last_login = CURRENT_TIMESTAMP WHERE id = ?`
(authenticate, lines 263-266). -/
def recordSuccess (uid now : Nat) (x : User) : User :=
  if x.id == uid then
    { x with failed_login_attempts := 0, locked_until := none, last_login := some now }
  else x

/-- The dict returned by a successful `authenticate` (lines 279-286). -/
structure AuthView where
  user_id : Nat
  username : String
  email : String
  role : String
  session_token : String
  permissions : List String
  deriving DecidableEq

/-- The dict returned by a successful `validate_session` (lines 326-332);
unlike `AuthView` it carries no token. -/
structure SessionView where
  user_id : Nat
  username : String
  email : String
  role : String
  permissions : List String
  deriving DecidableEq

/-- Caller-visible outcome of `authenticate`: the returned
`Optional[Dict]` plus the `st.error` messages emitted on the way (the
only other caller-visible channel), plus the resulting store. -/
structure AuthOutcome where
  result : Option AuthView
  errors : List String
  store : Store
  deriving DecidableEq

/-- The `st.error` text on the lockout path (line 238). -/
def lockedMsg : String := "Account is temporarily locked due to multiple failed login attempts"

/-- The `st.error` text on the deactivated path (line 243). -/
def deactivatedMsg : String := "Account is deactivated"

/-- Lockout window `timedelta(minutes=30)` in seconds. -/
def lockoutWindow : Nat := 1800

/-- Session lifetime `self.session_timeout = timedelta(hours=8)` in seconds. -/
def sessionTimeout : Nat := 28800

/-- Model of `AuthSystem.authenticate` (lines 217-292).  `now` is the ambient
`datetime.now()`, `tok` the token `secrets.token_urlsafe(32)` would
produce (used only on the success path). -/
def authenticate (s : Store) (username password : String) (now : Nat) (tok : String) :
    AuthOutcome :=
  match findUser s.users username with
  | none => ⟨none, [], s⟩
  | some u =>
    if lockActive u.locked_until now then
      ⟨none, [lockedMsg], s⟩
    else if !u.is_active then
      ⟨none, [deactivatedMsg], s⟩
    else if hash_password password u.salt ≠ u.password_hash then
      let newFailed := u.failed_login_attempts + 1
      let lockTime : Option Nat :=
        if newFailed ≥ 5 then some (now + lockoutWindow) else none
      ⟨none, [],
       { s with users := s.users.map (recordFailure u.id newFailed lockTime) }⟩
    else
      ⟨some ⟨u.id, u.username, u.email, u.role, tok, ROLE_PERMISSIONS u.role⟩, [],
       { s with
         users := s.users.map (recordSuccess u.id now),
         sessions := s.sessions ++
           [⟨u.id, tok, now, now + sessionTimeout, true, "127.0.0.1", "Streamlit"⟩] }⟩

/-- First row of `SELECT ... FROM sessions s JOIN users u ... WHERE
s.session_token = ? AND s.is_active = TRUE` restricted to the sessions
side (validate_session, lines 303-308). -/
def findActiveSession (sessions : List Session) (token : String) : Option Session :=
  sessions.find? (fun x => x.session_token == token && x.is_active)

/-- The row update of `UPDATE sessions SET is_active = FALSE WHERE
session_token = ?` (used by validate_session line 318 and logout line
345). -/
def deactivateTok (token : String) (x : Session) : Session :=
  if x.session_token == token then { x with is_active := false } else x

/-- Model of `AuthSystem.validate_session` (lines 294-338): returns the
`Optional[Dict]` and the possibly-updated store. -/
def validate_session (s : Store) (token : String) (now : Nat) :
    Option SessionView × Store :=
  if token == "" then (none, s)
  else
    match findActiveSession s.sessions token with
    | none => (none, s)
    | some sess =>
      match findUserById s.users sess.user_id with
      | none => (none, s)
      | some u =>
        if sess.expires_at < now then
          (none, { s with sessions := s.sessions.map (deactivateTok token) })
        else if !u.is_active then (none, s)
        else
          (some ⟨sess.user_id, u.username, u.email, u.role, ROLE_PERMISSIONS u.role⟩, s)

/-- Model of `AuthSystem.logout` (lines 340-347). -/
def logout (s : Store) (token : String) : Store :=
  { s with sessions := s.sessions.map (deactivateTok token) }

/-- Model of `AuthSystem.create_user` (lines 181-215).  `salt` stands for
`secrets.token_hex(32)`, `now` for the CURRENT_TIMESTAMP default of
`created_at`. -/
def create_user (s : Store) (username email password role salt : String) (now : Nat) :
    Bool × Store :=
  if s.users.any (fun u => u.username == username || u.email == email) then
    (false, s)
  else
    let uid := s.next_user_id
    (true,
     { s with
       users := s.users ++
         [⟨uid, username, email, hash_password password salt, salt, role,
           true, now, none, 0, none⟩],
       next_user_id := uid + 1,
       user_preferences := s.user_preferences ++ [⟨uid, "[]", "\x7b\x7d", "\x7b\x7d"⟩] })

/-- Model of `AuthSystem.deactivate_user` (lines 392-405). -/
def deactivate_user (s : Store) (uid : Nat) : Bool × Store :=
  (true,
   { s with
     users := s.users.map (fun x => if x.id == uid then { x with is_active := false } else x),
     sessions := s.sessions.map
       (fun x => if x.user_id == uid then { x with is_active := false } else x) })

/-- Model of `AuthSystem.log_query` (lines 407-429): skips writing entirely when
`user_id == 999` (the demo user), otherwise appends to query_history. -/
def log_query (s : Store) (uid : Nat) (natural_query generated_sql : String)
    (execution_time : Option Int) (result_count : Option Nat) (status : String)
    (error_message : Option String) : Store :=
  if uid == 999 then s
  else
    { s with query_history := s.query_history ++
        [⟨uid, natural_query, generated_sql, execution_time, result_count,
          status, error_message⟩] }

/-- Model of `AuthSystem.has_permission` (lines 349-351) on a validated view. -/
def has_permission (view : SessionView) (permission : String) : Bool :=
  view.permissions.contains permission

/-- The store component left behind by an authenticate call: the database
state the next operation sees. -/
def authStore (s : Store) (ident pw : String) (now : Nat) (tok : String) : Store :=
  (authenticate s ident pw now tok).store

/- Concrete example rows and stores, used to witness the theorems below on
closed inputs. -/

/-- Example active viewer account with a fresh failure counter. -/
def alice : User :=
  ⟨1, "alice", "alice@x.com", hash_password "Secret1!" "salt0", "salt0",
   UserRole.VIEWER, true, 0, none, 0, none⟩

/-- Example account whose lockout expired at time 10 with 5 recorded
failures. -/
def bob : User :=
  ⟨2, "bob", "bob@x.com", hash_password "pw2" "s2", "s2",
   UserRole.GUEST, true, 0, none, 5, some 10⟩

/-- Example account locked until time 1000. -/
def carl : User :=
  ⟨3, "carl", "carl@x.com", hash_password "pc" "s3", "s3",
   UserRole.VIEWER, true, 0, none, 5, some 1000⟩

/-- Example deactivated account. -/
def dana : User :=
  ⟨4, "dana", "dana@x.com", hash_password "pd" "s4", "s4",
   UserRole.ANALYST, false, 0, none, 0, none⟩

/-- Example session for alice, expiring at time 50. -/
def sessEx : Session := ⟨1, "t1", 0, 50, true, "127.0.0.1", "Streamlit"⟩

/-- Empty store. -/
def store0 : Store := ⟨[], 1, [], [], []⟩

/-- Store holding only alice. -/
def store1 : Store := ⟨[alice], 2, [], [], []⟩

/-- Store holding only bob. -/
def store2 : Store := ⟨[bob], 3, [], [], []⟩

/-- Store holding only carl. -/
def store3 : Store := ⟨[carl], 4, [], [], []⟩

/-- Store holding only dana. -/
def store4 : Store := ⟨[dana], 5, [], [], []⟩

/-- Store holding alice and her (expired at 50) session. -/
def store5 : Store := ⟨[alice], 2, [sessEx], [], []⟩

end AuthSys

namespace AuthSys

/-- Mapping a row update across the users table commutes with the lookup
as long as the update leaves the matched columns (username, email)
unchanged. -/
lemma find_map_of_pred_eq (p : User → Bool) (g : User → User)
    (hg : ∀ x, p (g x) = p x) (l : List User) :
    (l.map g).find? p = (l.find? p).map g := by
  induction l with
  | nil => rfl
  | cons a t ih =>
    simp only [List.map_cons, List.find?_cons, hg a]
    cases p a <;> simp [ih]

/-- recordFailure touches only failed_login_attempts and locked_until. -/
lemma recordFailure_pred (ident : String) (uid n : Nat) (lt : Option Nat) (x : User) :
    ((recordFailure uid n lt x).username == ident ||
      (recordFailure uid n lt x).email == ident) =
    (x.username == ident || x.email == ident) := by
  unfold recordFailure
  split <;> rfl

/-- recordSuccess touches only failed_login_attempts, locked_until and
last_login. -/
lemma recordSuccess_pred (ident : String) (uid now : Nat) (x : User) :
    ((recordSuccess uid now x).username == ident ||
      (recordSuccess uid now x).email == ident) =
    (x.username == ident || x.email == ident) := by
  unfold recordSuccess
  split <;> rfl

/-- Looking up an identifier after the failed-attempt UPDATE finds the
updated row. -/
lemma findUser_map_recordFailure (users : List User) (ident : String)
    (uid n : Nat) (lt : Option Nat) :
    findUser (users.map (recordFailure uid n lt)) ident =
      (findUser users ident).map (recordFailure uid n lt) :=
  find_map_of_pred_eq _ _ (recordFailure_pred ident uid n lt) users

/-- Looking up an identifier after the success UPDATE finds the updated
row. -/
lemma findUser_map_recordSuccess (users : List User) (ident : String)
    (uid now : Nat) :
    findUser (users.map (recordSuccess uid now)) ident =
      (findUser users ident).map (recordSuccess uid now) :=
  find_map_of_pred_eq _ _ (recordSuccess_pred ident uid now) users

/-- Equation for authenticate when the identifier matches no user row
(lines 230-232): bare None, no message, store untouched. -/
lemma authenticate_unknown (s : Store) (ident pw : String) (now : Nat) (tok : String)
    (h : findUser s.users ident = none) :
    authenticate s ident pw now tok = ⟨none, [], s⟩ := by
  simp [authenticate, h]

/-- Equation for authenticate on a row with an unexpired lock (lines
236-239). -/
lemma authenticate_locked (s : Store) (ident pw : String) (now : Nat) (tok : String)
    (u : User) (hfind : findUser s.users ident = some u)
    (hlock : lockActive u.locked_until now = true) :
    authenticate s ident pw now tok = ⟨none, [lockedMsg], s⟩ := by
  simp [authenticate, hfind, hlock]

/-- Equation for authenticate on an unlocked but deactivated row (lines
241-244). -/
lemma authenticate_deactivated (s : Store) (ident pw : String) (now : Nat) (tok : String)
    (u : User) (hfind : findUser s.users ident = some u)
    (hlock : lockActive u.locked_until now = false)
    (hinact : u.is_active = false) :
    authenticate s ident pw now tok = ⟨none, [deactivatedMsg], s⟩ := by
  simp [authenticate, hfind, hlock, hinact]

/-- Equation for authenticate on an unlocked, active row with a
non-matching password (lines 246-260). -/
lemma authenticate_wrong (s : Store) (ident pw : String) (now : Nat) (tok : String)
    (u : User) (hfind : findUser s.users ident = some u)
    (hlock : lockActive u.locked_until now = false)
    (hact : u.is_active = true)
    (hwrong : hash_password pw u.salt ≠ u.password_hash) :
    authenticate s ident pw now tok =
      ⟨none, [],
       { s with users := s.users.map (recordFailure u.id (u.failed_login_attempts + 1)
           (if u.failed_login_attempts + 1 ≥ 5 then some (now + lockoutWindow)
            else none)) }⟩ := by
  simp [authenticate, hfind, hlock, hact, hwrong]

/-- Equation for authenticate on an unlocked, active row with the correct
password (lines 262-286). -/
lemma authenticate_correct (s : Store) (ident pw : String) (now : Nat) (tok : String)
    (u : User) (hfind : findUser s.users ident = some u)
    (hlock : lockActive u.locked_until now = false)
    (hact : u.is_active = true)
    (hright : hash_password pw u.salt = u.password_hash) :
    authenticate s ident pw now tok =
      ⟨some ⟨u.id, u.username, u.email, u.role, tok, ROLE_PERMISSIONS u.role⟩, [],
       { s with
         users := s.users.map (recordSuccess u.id now),
         sessions := s.sessions ++
           [⟨u.id, tok, now, now + sessionTimeout, true, "127.0.0.1", "Streamlit"⟩] }⟩ := by
  simp [authenticate, hfind, hlock, hact, hright]

/-- One wrong-password attempt: no result, no message, and the identifier
now resolves to the row with the bumped counter and the recomputed
lockout column. -/
lemma auth_fail_step (s : Store) (ident pw : String) (now : Nat) (tok : String)
    (u : User) (n : Nat) (lt : Option Nat)
    (hfind : findUser s.users ident = some u)
    (hlock : lockActive u.locked_until now = false)
    (hact : u.is_active = true)
    (hwrong : hash_password pw u.salt ≠ u.password_hash)
    (hn : u.failed_login_attempts + 1 = n)
    (hlt : lt = if n ≥ 5 then some (now + lockoutWindow) else none) :
    (authenticate s ident pw now tok).result = none ∧
    (authenticate s ident pw now tok).errors = [] ∧
    findUser (authenticate s ident pw now tok).store.users ident =
      some { u with failed_login_attempts := n, locked_until := lt } := by
  subst hn
  subst hlt
  rw [authenticate_wrong s ident pw now tok u hfind hlock hact hwrong]
  refine ⟨rfl, rfl, ?_⟩
  rw [show ({ s with users := s.users.map (recordFailure u.id (u.failed_login_attempts + 1)
        (if u.failed_login_attempts + 1 ≥ 5 then some (now + lockoutWindow)
         else none)) } : Store).users = s.users.map (recordFailure u.id
        (u.failed_login_attempts + 1)
        (if u.failed_login_attempts + 1 ≥ 5 then some (now + lockoutWindow)
         else none)) from rfl]
  rw [findUser_map_recordFailure, hfind]
  simp [recordFailure]

/-- C3: authenticate on an identifier matching no row and authenticate on
an existing, active, non-locked row with a wrong password produce the
same caller-visible outcome: the same returned value (None) and the same
user-visible messages (none at all), so the result does not reveal
whether the identifier exists. -/
theorem c3_unknown_user_indistinguishable
    (s1 : Store) (id1 pw1 : String) (t1 : Nat) (k1 : String)
    (s2 : Store) (id2 pw2 : String) (t2 : Nat) (k2 : String) (u : User)
    (habsent : findUser s1.users id1 = none)
    (hfind : findUser s2.users id2 = some u)
    (hnl : lockActive u.locked_until t2 = false)
    (hact : u.is_active = true)
    (hwrong : hash_password pw2 u.salt ≠ u.password_hash) :
    (authenticate s1 id1 pw1 t1 k1).result = (authenticate s2 id2 pw2 t2 k2).result ∧
    (authenticate s1 id1 pw1 t1 k1).errors = (authenticate s2 id2 pw2 t2 k2).errors := by
  rw [authenticate_unknown s1 id1 pw1 t1 k1 habsent,
      authenticate_wrong s2 id2 pw2 t2 k2 u hfind hnl hact hwrong]
  exact ⟨rfl, rfl⟩

/-- Closed instance of c3_unknown_user_indistinguishable: an unknown
identifier against the empty store versus alice with a wrong password. -/
theorem c3_witness :
    (authenticate store0 "nobody" "x" 0 "k").result =
      (authenticate store1 "alice" "bad" 0 "k").result ∧
    (authenticate store0 "nobody" "x" 0 "k").errors =
      (authenticate store1 "alice" "bad" 0 "k").errors :=
  c3_unknown_user_indistinguishable store0 "nobody" "x" 0 "k"
    store1 "alice" "bad" 0 "k" alice (by decide) (by decide) (by decide)
    (by decide) (by decide)

/-- C5: creating an account that reuses the username or the email of an
existing row fails (create_user returns False) and the store — users,
preferences and all — is exactly what it was: no partial write, the
existing account untouched. -/
theorem c5_duplicate_create_rejected (s : Store) (u : User) (hu : u ∈ s.users)
    (uname email pw role salt : String) (now : Nat)
    (hdup : uname = u.username ∨ email = u.email) :
    create_user s uname email pw role salt now = (false, s) := by
  have h : s.users.any (fun x => x.username == uname || x.email == email) = true := by
    rw [List.any_eq_true]
    refine ⟨u, hu, ?_⟩
    rcases hdup with h | h <;> simp [h]
  simp [create_user, h]

/-- Closed instance of c5_duplicate_create_rejected: reusing alice's
username with a fresh email. -/
theorem c5_witness :
    create_user store1 "alice" "new@x.com" "p" "guest" "s9" 7 = (false, store1) :=
  c5_duplicate_create_rejected store1 alice (by decide) "alice" "new@x.com"
    "p" "guest" "s9" 7 (Or.inl (by decide))

/-- C6: with lockout-expiry set and strictly in the future, authenticate
rejects with the locked message for every supplied password — no
verification can influence the outcome — and returns the store unchanged
in every field. -/
theorem c6_locked_rejected_store_unchanged (s : Store) (ident pw : String)
    (now : Nat) (tok : String) (u : User) (lt : Nat)
    (hfind : findUser s.users ident = some u)
    (hlock : u.locked_until = some lt) (hfut : now < lt) :
    authenticate s ident pw now tok = ⟨none, [lockedMsg], s⟩ := by
  apply authenticate_locked s ident pw now tok u hfind
  simp [lockActive, hlock, hfut]

/-- Closed instance of c6_locked_rejected_store_unchanged: carl is locked
until 1000 and tries his own correct password at time 500. -/
theorem c6_witness :
    authenticate store3 "carl" "pc" 500 "k" = ⟨none, [lockedMsg], store3⟩ :=
  c6_locked_rejected_store_unchanged store3 "carl" "pc" 500 "k" carl 1000
    (by decide) (by decide) (by decide)

/-- C7: an account with a false active flag that is not currently locked
is rejected with the deactivated message for every supplied password,
correct or not (the password is never compared). -/
theorem c7_deactivated_rejected (s : Store) (ident pw : String) (now : Nat)
    (tok : String) (u : User)
    (hfind : findUser s.users ident = some u)
    (hnl : lockActive u.locked_until now = false)
    (hinact : u.is_active = false) :
    authenticate s ident pw now tok = ⟨none, [deactivatedMsg], s⟩ :=
  authenticate_deactivated s ident pw now tok u hfind hnl hinact

/-- Closed instance of c7_deactivated_rejected: dana is deactivated and
supplies her correct password. -/
theorem c7_witness :
    authenticate store4 "dana" "pd" 3 "k" = ⟨none, [deactivatedMsg], store4⟩ :=
  c7_deactivated_rejected store4 "dana" "pd" 3 "k" dana (by decide)
    (by decide) (by decide)

/-- C2 (amended): on any successful authentication — including one whose
stored lockout-expiry has already elapsed — the account's failed-attempt
counter is reset to 0 and its lockout-expiry is set to NULL; but an
elapsed lockout-expiry is only ignored, not erased, until such a
successful call happens. -/
theorem c2_success_resets_counter_and_lock (s : Store) (ident pw : String)
    (now : Nat) (tok : String) (u : User)
    (hfind : findUser s.users ident = some u)
    (hnl : lockActive u.locked_until now = false)
    (hact : u.is_active = true)
    (hright : hash_password pw u.salt = u.password_hash) :
    (authenticate s ident pw now tok).result =
      some ⟨u.id, u.username, u.email, u.role, tok, ROLE_PERMISSIONS u.role⟩ ∧
    findUser (authenticate s ident pw now tok).store.users ident =
      some { u with failed_login_attempts := 0, locked_until := none,
                    last_login := some now } := by
  rw [authenticate_correct s ident pw now tok u hfind hnl hact hright]
  refine ⟨rfl, ?_⟩
  rw [show ({ s with
                users := s.users.map (recordSuccess u.id now),
                sessions := s.sessions ++
                  [⟨u.id, tok, now, now + sessionTimeout, true,
                    "127.0.0.1", "Streamlit"⟩] } : Store).users =
        s.users.map (recordSuccess u.id now) from rfl]
  rw [findUser_map_recordSuccess, hfind]
  simp [recordSuccess]

/-- Closed instance of c2_success_resets_counter_and_lock: bob carries 5
failures and a lockout that expired at time 10; logging in correctly at
time 100 succeeds, zeroes the counter, and nulls the lockout column. -/
theorem c2_witness :
    (authenticate store2 "bob" "pw2" 100 "tkb").result =
      some ⟨2, "bob", "bob@x.com", UserRole.GUEST, "tkb",
            ROLE_PERMISSIONS UserRole.GUEST⟩ ∧
    findUser (authenticate store2 "bob" "pw2" 100 "tkb").store.users "bob" =
      some { bob with failed_login_attempts := 0, locked_until := none,
                      last_login := some 100 } :=
  c2_success_resets_counter_and_lock store2 "bob" "pw2" 100 "tkb" bob
    (by decide) (by decide) (by decide) (by decide)

/-- C2 counterexample: five wrong-password logins for alice at time 0
leave locked_until = some 1800; at time 2000 that expiry has long passed,
no further operation has run, and the account still retains the non-null
lockout-expiry — elapsing alone never clears it. -/
theorem c2_counterexample :
    (findUser (authStore (authStore (authStore (authStore (authStore store1
        "alice" "bad" 0 "") "alice" "bad" 0 "") "alice" "bad" 0 "")
        "alice" "bad" 0 "") "alice" "bad" 0 "").users "alice").map
      (fun x => x.locked_until) = some (some 1800) ∧ (1800 : Nat) < 2000 := by
  constructor
  · decide
  · decide

/-- C8: revoking a token twice yields exactly the store of revoking it
once; after revocation every session bearing the token has a false active
flag, and validating the token at any time yields None. -/
theorem c8_logout_idempotent (s : Store) (token : String) :
    logout (logout s token) token = logout s token ∧
    ((logout s token).sessions.all
      (fun x => !(x.session_token == token) || !x.is_active) = true) ∧
    ∀ now : Nat, (validate_session (logout s token) token now).1 = none := by
  refine ⟨?_, ?_, ?_⟩
  · show ({ { s with sessions := s.sessions.map (deactivateTok token) } with
      sessions := (s.sessions.map (deactivateTok token)).map (deactivateTok token) }
        : Store) = { s with sessions := s.sessions.map (deactivateTok token) }
    rw [List.map_map]
    have h : ∀ x ∈ s.sessions,
        (deactivateTok token ∘ deactivateTok token) x = deactivateTok token x := by
      intro x _
      show deactivateTok token (deactivateTok token x) = deactivateTok token x
      unfold deactivateTok
      by_cases h : x.session_token == token
      · simp [h]
      · simp [h]
    rw [List.map_congr_left h]
  · rw [List.all_eq_true]
    intro x hx
    rw [show (logout s token).sessions = s.sessions.map (deactivateTok token)
          from rfl, List.mem_map] at hx
    obtain ⟨y, _, rfl⟩ := hx
    unfold deactivateTok
    by_cases h : y.session_token == token
    · simp [h]
    · simp [h]
  · intro now
    have hfind : findActiveSession (logout s token).sessions token = none := by
      unfold findActiveSession
      rw [List.find?_eq_none]
      intro x hx
      rw [show (logout s token).sessions = s.sessions.map (deactivateTok token)
            from rfl, List.mem_map] at hx
      obtain ⟨y, _, rfl⟩ := hx
      unfold deactivateTok
      by_cases h : y.session_token == token
      · simp [h]
      · simp [h]
    cases htok : (token == "") <;> simp [validate_session, htok, hfind]

/-- C4: validate_session fails closed — None when no session carries the
token (never issued), None when every session carrying the token has a
false active flag, and on an expired-but-still-active session (whose
owner row exists, as the JOIN requires) it flips that session's active
flag to false as its only store change and returns None. -/
theorem c4_validate_fails_closed (s : Store) (token : String) (now : Nat) :
    ((∀ sess ∈ s.sessions, sess.session_token ≠ token) →
      validate_session s token now = (none, s)) ∧
    ((∀ sess ∈ s.sessions, sess.session_token = token → sess.is_active = false) →
      validate_session s token now = (none, s)) ∧
    (∀ sess u, token ≠ "" →
      findActiveSession s.sessions token = some sess →
      findUserById s.users sess.user_id = some u →
      sess.expires_at < now →
      validate_session s token now =
        (none, { s with sessions := s.sessions.map (deactivateTok token) })) := by
  refine ⟨?_, ?_, ?_⟩
  · intro h
    have hfind : findActiveSession s.sessions token = none := by
      unfold findActiveSession
      rw [List.find?_eq_none]
      intro x hx hc
      rw [Bool.and_eq_true, beq_iff_eq] at hc
      exact h x hx hc.1
    cases htok : (token == "") <;> simp [validate_session, htok, hfind]
  · intro h
    have hfind : findActiveSession s.sessions token = none := by
      unfold findActiveSession
      rw [List.find?_eq_none]
      intro x hx hc
      rw [Bool.and_eq_true, beq_iff_eq] at hc
      rw [h x hx hc.1] at hc
      exact Bool.false_ne_true hc.2
    cases htok : (token == "") <;> simp [validate_session, htok, hfind]
  · intro sess u hne hfind hfu hexp
    have htok : (token == "") = false := by
      rw [beq_eq_false_iff_ne]
      exact hne
    simp [validate_session, htok, hfind, hfu, hexp]

/-- Closed instance of c4_validate_fails_closed (third conjunct): alice's
session expired at 50 and is still flagged active; validating at 100
returns None and deactivates exactly that session. -/
theorem c4_witness :
    validate_session store5 "t1" 100 =
      (none, { store5 with
                 sessions := [⟨1, "t1", 0, 50, false, "127.0.0.1", "Streamlit"⟩] }) := by
  have h := (c4_validate_fails_closed store5 "t1" 100).2.2 sessEx alice
    (by decide) (by decide) (by decide) (by decide)
  rw [h]
  decide

/-- C1: from a zero failure counter, five wrong-password authenticate
calls leave the account locked until the time of the fifth failure plus
30 minutes, and a sixth call inside that window with the CORRECT password
is still rejected with the locked message, the store untouched. -/
theorem c1_five_failures_lock_sixth_rejected
    (s0 : Store) (ident pw cpw : String) (u : User)
    (t1 t2 t3 t4 t5 t6 : Nat) (k1 k2 k3 k4 k5 k6 : String)
    (hfind : findUser s0.users ident = some u)
    (hact : u.is_active = true)
    (hfail0 : u.failed_login_attempts = 0)
    (hlock0 : u.locked_until = none)
    (hwrong : hash_password pw u.salt ≠ u.password_hash)
    (hright : hash_password cpw u.salt = u.password_hash)
    (ht6 : t6 < t5 + lockoutWindow) :
    (findUser (authStore (authStore (authStore (authStore (authStore s0
        ident pw t1 k1) ident pw t2 k2) ident pw t3 k3) ident pw t4 k4)
        ident pw t5 k5).users ident).map (fun x => x.locked_until) =
      some (some (t5 + lockoutWindow)) ∧
    authenticate (authStore (authStore (authStore (authStore (authStore s0
        ident pw t1 k1) ident pw t2 k2) ident pw t3 k3) ident pw t4 k4)
        ident pw t5 k5) ident cpw t6 k6 =
      ⟨none, [lockedMsg],
        authStore (authStore (authStore (authStore (authStore s0
          ident pw t1 k1) ident pw t2 k2) ident pw t3 k3) ident pw t4 k4)
          ident pw t5 k5⟩ := by
  simp only [authStore]
  have h1 := auth_fail_step s0 ident pw t1 k1 u 1 none hfind
    (by rw [hlock0]; rfl) hact hwrong (by rw [hfail0]) ((if_neg (by omega)).symm)
  have h2 := auth_fail_step _ ident pw t2 k2 _ 2 none h1.2.2
    rfl hact hwrong rfl ((if_neg (by omega)).symm)
  have h3 := auth_fail_step _ ident pw t3 k3 _ 3 none h2.2.2
    rfl hact hwrong rfl ((if_neg (by omega)).symm)
  have h4 := auth_fail_step _ ident pw t4 k4 _ 4 none h3.2.2
    rfl hact hwrong rfl ((if_neg (by omega)).symm)
  have h5 := auth_fail_step _ ident pw t5 k5 _ 5 (some (t5 + lockoutWindow)) h4.2.2
    rfl hact hwrong rfl ((if_pos (by omega)).symm)
  refine ⟨?_, ?_⟩
  · rw [h5.2.2]
    rfl
  · exact authenticate_locked _ ident cpw t6 k6 _ h5.2.2 (decide_eq_true ht6)

/-- Closed instance of c1_five_failures_lock_sixth_rejected: alice fails
five times at time 0, is locked until 1800, and her correct password is
rejected at time 10. -/
theorem c1_witness :
    (findUser (authStore (authStore (authStore (authStore (authStore store1
        "alice" "bad" 0 "") "alice" "bad" 0 "") "alice" "bad" 0 "")
        "alice" "bad" 0 "") "alice" "bad" 0 "").users "alice").map
      (fun x => x.locked_until) = some (some (0 + lockoutWindow)) ∧
    authenticate (authStore (authStore (authStore (authStore (authStore store1
        "alice" "bad" 0 "") "alice" "bad" 0 "") "alice" "bad" 0 "")
        "alice" "bad" 0 "") "alice" "bad" 0 "") "alice" "Secret1!" 10 "k6" =
      ⟨none, [lockedMsg],
        authStore (authStore (authStore (authStore (authStore store1
          "alice" "bad" 0 "") "alice" "bad" 0 "") "alice" "bad" 0 "")
          "alice" "bad" 0 "") "alice" "bad" 0 ""⟩ :=
  c1_five_failures_lock_sixth_rejected store1 "alice" "bad" "Secret1!" alice
    0 0 0 0 0 10 "" "" "" "" "" "k6" (by decide) (by decide) (by decide)
    (by decide) (by decide) (by decide) (by decide)

/-- Closed instance of c8_logout_idempotent on alice's session store. -/
theorem c8_witness :
    logout (logout store5 "t1") "t1" = logout store5 "t1" ∧
    ((logout store5 "t1").sessions.all
      (fun x => !(x.session_token == "t1") || !x.is_active) = true) ∧
    (validate_session (logout store5 "t1") "t1" 7).1 = none :=
  ⟨(c8_logout_idempotent store5 "t1").1,
   (c8_logout_idempotent store5 "t1").2.1,
   (c8_logout_idempotent store5 "t1").2.2 7⟩

/-- C9: `permissionsFor(guest)` is a strict subset of
`permissionsFor(admin)`: every guest permission is an admin permission,
`manage_users` (the code's name for manage-accounts) is an admin
permission, and it is not a guest permission. -/
theorem c9_guest_strict_subset_admin :
    ((ROLE_PERMISSIONS UserRole.GUEST).all
      (fun p => (ROLE_PERMISSIONS UserRole.ADMIN).contains p) = true) ∧
    (ROLE_PERMISSIONS UserRole.ADMIN).contains Permission.MANAGE_USERS = true ∧
    (ROLE_PERMISSIONS UserRole.GUEST).contains Permission.MANAGE_USERS = false := by
  decide

/-- C10: `log_query` called with owning account id 999 returns without
writing anything: the whole store, query_history included, is unchanged. -/
theorem c10_demo_user_not_logged (s : Store) (nq gs : String) (et : Option Int)
    (rc : Option Nat) (status : String) (em : Option String) :
    log_query s 999 nq gs et rc status em = s := by
  simp [log_query]

/-- Closed instance of c10_demo_user_not_logged. -/
theorem c10_witness :
    log_query store1 999 "q" "sql" none none "success" none = store1 :=
  c10_demo_user_not_logged store1 "q" "sql" none none "success" none

end AuthSys
